import Mathlib

/-!
Verification of the custom output-parser examples from
`docs/docs/how_to/output_parser_custom.ipynb`.

The notebook defines, in Python:
- a pure function `parse(ai_message)` returning `ai_message.content.swapcase()`;
- a generator `streaming_parse(chunks)` yielding `chunk.content.swapcase()`
  for each chunk;
- a class `BooleanOutputParser(BaseOutputParser[bool])` with fields
  `true_val = "YES"` and `false_val = "NO"` and a method `parse(text)` that
  strips and upper-cases the input, raises `OutputParserException` when the
  cleaned text is neither token upper-cased, and otherwise returns the
  boolean `cleaned_text == true_val.upper()`;
- a class `StrInvertCase(BaseGenerationOutputParser[str])` with a method
  `parse_result(result, partial=False)` that raises `NotImplementedError`
  when `len(result) != 1`, raises `OutputParserException` when the single
  generation is not a `ChatGeneration`, and otherwise returns
  `generation.message.content.swapcase()`.

We embed these shallowly: Python exceptions become an error type threaded
through `Except`, and since Python is dynamically typed the value returned
by `BooleanOutputParser.parse` is embedded as a `PyVal` (the code returns
the boolean produced by `==`). String normalisation is embedded by
`pyStrip`/`pyUpper`/`swapcase` below, the ASCII fragments of the Python functions
`str.strip`/`str.upper`/`str.swapcase`, defined structurally on the
character list so they evaluate by kernel reduction.
-/

/-- A runtime value as the example parsers produce them: the swapcase
parsers produce strings, `BooleanOutputParser.parse` produces a boolean. -/
inductive PyVal where
  | pybool : Bool → PyVal
  | pystr : String → PyVal
deriving DecidableEq, Repr

/-- The exception kinds raised by the notebook parsers, each carrying its
message: `OutputParserException` (from `langchain_core.exceptions`) and the
built-in `NotImplementedError`. -/
inductive PyError where
  | outputParserException : String → PyError
  | notImplementedError : String → PyError
deriving DecidableEq, Repr

deriving instance DecidableEq for Except

/-- Python `str.swapcase` on a single character (ASCII fragment): lower-case
letters become upper-case, upper-case become lower-case, others unchanged. -/
def swapcaseChar (c : Char) : Char :=
  if c.isLower then c.toUpper else if c.isUpper then c.toLower else c

/-- Python `str.swapcase` (ASCII fragment): invert the case of each character.
Defined directly on the character list so that it evaluates by kernel
reduction. -/
def swapcase (s : String) : String :=
  String.mk (s.data.map swapcaseChar)

/-- Python `str.upper` (ASCII fragment): upper-case each character. -/
def pyUpper (s : String) : String :=
  String.mk (s.data.map Char.toUpper)

/-- Python `str.strip()` with no argument: remove leading and trailing
whitespace. -/
def pyStrip (s : String) : String :=
  String.mk (((s.data.dropWhile Char.isWhitespace).reverse.dropWhile
    Char.isWhitespace).reverse)

/-- `AIMessage`: a chat-model message with a text payload, as consumed by the
notebook (`ai_message.content`). -/
structure AIMessage where
  content : String
deriving DecidableEq, Repr

/-- `AIMessageChunk`: a streamed fragment of a chat-model message. -/
structure AIMessageChunk where
  content : String
deriving DecidableEq, Repr

/-- The first parser of the notebook:
`def parse(ai_message: AIMessage) -> str: return ai_message.content.swapcase()`. -/
def parse (ai_message : AIMessage) : String :=
  swapcase ai_message.content

/-- The streaming parser of the notebook:
`def streaming_parse(chunks): for chunk in chunks: yield chunk.content.swapcase()`.
A generator over a finite stream is embedded as the list of yielded values. -/
def streaming_parse (chunks : List AIMessageChunk) : List String :=
  chunks.map (fun chunk => swapcase chunk.content)

/-- `BooleanOutputParser`: field defaults `true_val: str = "YES"`,
`false_val: str = "NO"`. -/
structure BooleanOutputParser where
  true_val : String := "YES"
  false_val : String := "NO"
deriving DecidableEq, Repr

/-- `BooleanOutputParser.parse`:
```
cleaned_text = text.strip().upper()
if cleaned_text not in (self.true_val.upper(), self.false_val.upper()):
    raise OutputParserException(...)
return cleaned_text == self.true_val.upper()
```
-/
def BooleanOutputParser.parse (self : BooleanOutputParser) (text : String) :
    Except PyError PyVal :=
  let cleaned_text := pyUpper (pyStrip text)
  if cleaned_text ≠ pyUpper self.true_val ∧ cleaned_text ≠ pyUpper self.false_val then
    Except.error (PyError.outputParserException
      ("BooleanOutputParser expected output value to either be " ++ self.true_val
        ++ " or " ++ self.false_val ++ " (case-insensitive). Received "
        ++ cleaned_text ++ "."))
  else
    Except.ok (PyVal.pybool (cleaned_text == pyUpper self.true_val))

/-- A `Generation` as the notebook distinguishes them at runtime: either a
plain-text `Generation` (with a `text` payload) or a `ChatGeneration`
carrying a message (`generation.message.content`). -/
inductive Generation where
  | plain : String → Generation
  | chat : AIMessage → Generation
deriving DecidableEq, Repr

/-- `StrInvertCase.parse_result(result, partial=False)`:
```
if len(result) != 1:
    raise NotImplementedError(
        "This output parser can only be used with a single generation.")
generation = result[0]
if not isinstance(generation, ChatGeneration):
    raise OutputParserException(
        "This output parser can only be used with a chat generation.")
return generation.message.content.swapcase()
```
The unused `partial` flag is kept as an explicit argument. -/
def StrInvertCase.parse_result (result : List Generation) (allowIncomplete : Bool) :
    Except PyError String :=
  match result with
  | [generation] =>
    match generation with
    | Generation.chat message => Except.ok (swapcase message.content)
    | Generation.plain _ =>
      Except.error (PyError.outputParserException
        "This output parser can only be used with a chat generation.")
  | _ =>
    Except.error (PyError.notImplementedError
      "This output parser can only be used with a single generation.")

/-- Discriminator: whether an exception is the output-parsing failure
`OutputParserException`. -/
def PyError.isOutputParserException : PyError → Bool
  | PyError.outputParserException _ => true
  | PyError.notImplementedError _ => false

/-- Discriminator: whether a runtime value is a string. -/
def PyVal.isStr : PyVal → Bool
  | PyVal.pystr _ => true
  | PyVal.pybool _ => false

/-- Helper: `BooleanOutputParser.parse` depends on its input only through the
cleaned (stripped, upper-cased) text. -/
theorem BooleanOutputParser.parse_congr (p : BooleanOutputParser) (s t : String)
    (h : pyUpper (pyStrip s) = pyUpper (pyStrip t)) : p.parse s = p.parse t := by
  simp only [BooleanOutputParser.parse, h]

/-- Helper: acceptance and rejection of `BooleanOutputParser.parse`, split on
whether the cleaned text is one of the two upper-cased tokens. -/
theorem BooleanOutputParser.parse_cases (p : BooleanOutputParser) (text : String) :
    ((pyUpper (pyStrip text) = pyUpper p.true_val ∨
        pyUpper (pyStrip text) = pyUpper p.false_val) →
      p.parse text =
        Except.ok (PyVal.pybool (pyUpper (pyStrip text) == pyUpper p.true_val))) ∧
    ((pyUpper (pyStrip text) ≠ pyUpper p.true_val ∧
        pyUpper (pyStrip text) ≠ pyUpper p.false_val) →
      ∃ m, p.parse text = Except.error (PyError.outputParserException m)) := by
  unfold BooleanOutputParser.parse
  by_cases h1 : pyUpper (pyStrip text) = pyUpper p.true_val <;>
    by_cases h2 : pyUpper (pyStrip text) = pyUpper p.false_val <;>
    simp [h1, h2]

/-- C1, counterexample to the claim as stated: the input `" YES"` is not a
case-insensitive match of either configured token (`"YES"`, `"NO"`), yet
`BooleanOutputParser.parse` accepts it instead of raising
`OutputParserException`, because matching is performed on the stripped input. -/
theorem C1_counterexample :
    ({} : BooleanOutputParser).parse " YES" = Except.ok (PyVal.pybool true) ∧
    (pyUpper " YES" == pyUpper "YES") = false ∧
    (pyUpper " YES" == pyUpper "NO") = false :=
  ⟨rfl, by decide, by decide⟩

/-- C1, amended: `BooleanOutputParser.parse` accepts exactly its two configured
tokens up to letter case and leading/trailing whitespace: every input whose
stripped upper-casing equals the upper-casing of one of the two tokens returns
a value, and every other input raises `OutputParserException`. -/
theorem C1_two_token_accept_reject (p : BooleanOutputParser) (text : String) :
    ((pyUpper (pyStrip text) = pyUpper p.true_val ∨
        pyUpper (pyStrip text) = pyUpper p.false_val) →
      ∃ b, p.parse text = Except.ok (PyVal.pybool b)) ∧
    ((pyUpper (pyStrip text) ≠ pyUpper p.true_val ∧
        pyUpper (pyStrip text) ≠ pyUpper p.false_val) →
      ∃ m, p.parse text = Except.error (PyError.outputParserException m)) :=
  ⟨fun h => ⟨_, (BooleanOutputParser.parse_cases p text).1 h⟩,
    (BooleanOutputParser.parse_cases p text).2⟩

/-- C1 witness: the accept branch at the padded lower-case true token and the
reject branch at `"MEOW"`, both with the default configuration. -/
theorem C1_witness :
    (∃ b, ({} : BooleanOutputParser).parse " yes " = Except.ok (PyVal.pybool b)) ∧
    (∃ m, ({} : BooleanOutputParser).parse "MEOW" =
      Except.error (PyError.outputParserException m)) :=
  ⟨(C1_two_token_accept_reject {} " yes ").1 (by decide),
    (C1_two_token_accept_reject {} "MEOW").2 (by decide)⟩

/-- C2, counterexample to the claim as stated: on the empty generation list,
`StrInvertCase.parse_result` raises `NotImplementedError`, which is not the
output-parsing failure `OutputParserException`. -/
theorem C2_counterexample :
    StrInvertCase.parse_result [] false =
      Except.error (PyError.notImplementedError
        "This output parser can only be used with a single generation.") ∧
    PyError.isOutputParserException (PyError.notImplementedError
      "This output parser can only be used with a single generation.") = false :=
  ⟨rfl, rfl⟩

/-- C2, amended: `BooleanOutputParser.parse` raises only
`OutputParserException`; `StrInvertCase.parse_result` raises
`OutputParserException` except for the exactly-one-candidate precondition,
which it rejects with `NotImplementedError`. -/
theorem C2_error_kinds :
    (∀ (p : BooleanOutputParser) (text : String) (e : PyError),
        p.parse text = Except.error e → ∃ m, e = PyError.outputParserException m) ∧
    (∀ (result : List Generation) (inc : Bool) (e : PyError),
        StrInvertCase.parse_result result inc = Except.error e →
          (result.length ≠ 1 → ∃ m, e = PyError.notImplementedError m) ∧
          (result.length = 1 → ∃ m, e = PyError.outputParserException m)) := by
  constructor
  · intro p text e h
    simp only [BooleanOutputParser.parse] at h
    split at h
    · exact ⟨_, (Except.error.inj h).symm⟩
    · cases h
  · intro result inc e h
    match result, h with
    | [], h =>
      exact ⟨fun _ => ⟨_, (Except.error.inj h).symm⟩,
        fun hlen => absurd hlen (by decide)⟩
    | [Generation.plain s], h =>
      exact ⟨fun hlen => absurd rfl hlen,
        fun _ => ⟨_, (Except.error.inj h).symm⟩⟩
    | [Generation.chat msg], h => cases h
    | g1 :: g2 :: rest, h =>
      exact ⟨fun _ => ⟨_, (Except.error.inj h).symm⟩,
        fun hlen => by simp at hlen⟩

/-- C2 witness: the first conjunct at the default configuration on `"MEOW"`,
the second at the empty generation list (wrong length, `NotImplementedError`)
and at a singleton plain-text generation (`OutputParserException`). -/
theorem C2_witness :
    (∃ m, PyError.outputParserException
        "BooleanOutputParser expected output value to either be YES or NO (case-insensitive). Received MEOW."
        = PyError.outputParserException m) ∧
    (∃ m, PyError.notImplementedError
        "This output parser can only be used with a single generation."
        = PyError.notImplementedError m) ∧
    (∃ m, PyError.outputParserException
        "This output parser can only be used with a chat generation."
        = PyError.outputParserException m) :=
  ⟨C2_error_kinds.1 {} "MEOW" _ rfl,
    (C2_error_kinds.2 [] false _ rfl).1 (by decide),
    (C2_error_kinds.2 [Generation.plain "x"] false _ rfl).2 rfl⟩

/-- C3: for every input list of generations whose length is not exactly one,
`StrInvertCase.parse_result` raises a failure and returns no value. -/
theorem C3_wrong_length_rejected (result : List Generation) (inc : Bool)
    (h : result.length ≠ 1) :
    ∃ e, StrInvertCase.parse_result result inc = Except.error e := by
  match result with
  | [] => exact ⟨_, rfl⟩
  | [g] => exact absurd rfl h
  | g1 :: g2 :: rest => exact ⟨_, rfl⟩

/-- C3 witness: the empty list is rejected. -/
theorem C3_witness :
    ∃ e, StrInvertCase.parse_result [] false = Except.error e :=
  C3_wrong_length_rejected [] false (by decide)

/-- C4: on a singleton generation list, `StrInvertCase.parse_result` checks
the runtime shape of the candidate: a chat-style generation yields the
message text with its case inverted, a plain-text generation raises
`OutputParserException`. -/
theorem C4_singleton_shape :
    (∀ (message : AIMessage) (inc : Bool),
        StrInvertCase.parse_result [Generation.chat message] inc =
          Except.ok (swapcase message.content)) ∧
    (∀ (s : String) (inc : Bool), ∃ m,
        StrInvertCase.parse_result [Generation.plain s] inc =
          Except.error (PyError.outputParserException m)) :=
  ⟨fun _ _ => rfl, fun _ _ => ⟨_, rfl⟩⟩

/-- C5: after reconfiguring the true token to `"OKAY"` (leaving the false
token at its default `"NO"`), both configured values are honored: the new
true token parses to `True` and the false token parses to `False`. -/
theorem C5_reconfigured_tokens :
    ({ true_val := "OKAY" } : BooleanOutputParser).parse "OKAY" =
        Except.ok (PyVal.pybool true) ∧
    ({ true_val := "OKAY" } : BooleanOutputParser).parse "NO" =
        Except.ok (PyVal.pybool false) :=
  ⟨rfl, rfl⟩

/-- C6, counterexample to the claim as stated: on the accepted input `"YES"`,
`BooleanOutputParser.parse` produces the boolean value `True`, not a string. -/
theorem C6_counterexample :
    ({} : BooleanOutputParser).parse "YES" = Except.ok (PyVal.pybool true) ∧
    PyVal.isStr (PyVal.pybool true) = false :=
  ⟨rfl, rfl⟩

/-- C6, amended: on every input it accepts, `BooleanOutputParser.parse`
produces a boolean value (not a transformed string). -/
theorem C6_accepted_output_is_boolean (p : BooleanOutputParser) (text : String)
    (v : PyVal) (h : p.parse text = Except.ok v) : ∃ b, v = PyVal.pybool b := by
  simp only [BooleanOutputParser.parse] at h
  split at h
  · cases h
  · exact ⟨_, (Except.ok.inj h).symm⟩

/-- C6 witness: the default configuration on `"YES"`. -/
theorem C6_witness : ∃ b, PyVal.pybool true = PyVal.pybool b :=
  C6_accepted_output_is_boolean {} "YES" (PyVal.pybool true) rfl

/-- C7: the parsers are deterministic: any two parser instances with the same
token configuration produce the same outcome on the same input (the parse
outcome is a function of the configured tokens and the input text alone). -/
theorem C7_deterministic (p q : BooleanOutputParser) (text : String)
    (h1 : p.true_val = q.true_val) (h2 : p.false_val = q.false_val) :
    p.parse text = q.parse text := by
  cases p
  cases q
  cases h1
  cases h2
  rfl

/-- C7 witness: two default-configured instances agree on `"YES"`. -/
theorem C7_witness :
    ({} : BooleanOutputParser).parse "YES" = ({} : BooleanOutputParser).parse "YES" :=
  C7_deterministic {} {} "YES" rfl rfl

/-- C8 (implicit claim): `BooleanOutputParser.parse` ignores leading and
trailing whitespace as well as letter case: whenever an input text has the
same stripped upper-casing as an accepted token, parsing the text succeeds
with the same boolean as parsing the token itself. -/
theorem C8_strip_case_insensitive (p : BooleanOutputParser) (t text : String)
    (b : Bool) (hacc : p.parse t = Except.ok (PyVal.pybool b))
    (hmatch : pyUpper (pyStrip text) = pyUpper (pyStrip t)) :
    p.parse text = Except.ok (PyVal.pybool b) :=
  (BooleanOutputParser.parse_congr p text t hmatch).trans hacc

/-- C8 witness: with the default configuration, `"  yEs "` parses to the same
value `True` as the token `"YES"`. -/
theorem C8_witness :
    ({} : BooleanOutputParser).parse "  yEs " = Except.ok (PyVal.pybool true) :=
  C8_strip_case_insensitive {} "YES" "  yEs " true rfl (by decide)

/-- Helper: case inversion of the empty string. -/
theorem swapcase_empty : swapcase "" = "" := rfl

/-- Helper: case inversion distributes over string concatenation. -/
theorem swapcase_append (a b : String) : swapcase (a ++ b) = swapcase a ++ swapcase b := by
  apply String.ext
  simp [swapcase, String.data_append]

/-- Helper: case inversion commutes with a left fold of concatenations. -/
theorem swapcase_foldl (l : List String) (init : String) :
    swapcase (l.foldl (fun r s => r ++ s) init) =
      (l.map swapcase).foldl (fun r s => r ++ s) (swapcase init) := by
  induction l generalizing init with
  | nil => rfl
  | cons s rest ih => simp [List.foldl, ih, swapcase_append]

/-- C9 (implicit claim): the streaming parser agrees with the aggregating
parser: for every finite sequence of message chunks, concatenating the
outputs yielded by `streaming_parse` equals `parse` applied to a message
whose content is the concatenation of the chunk contents. -/
theorem C9_streaming_agrees (chunks : List AIMessageChunk) :
    String.join (streaming_parse chunks) =
      parse (AIMessage.mk (String.join (chunks.map AIMessageChunk.content))) := by
  simp only [parse, String.join, streaming_parse, swapcase_foldl, swapcase_empty,
    List.map_map]
  rfl

/-- C10 (implicit claim): in a degenerate configuration where the two tokens
coincide after upper-casing, every accepted input parses to `True` (the
result is the equality of the cleaned input with the upper-cased true token,
which then holds for every accepted input). -/
theorem C10_degenerate_true_only (p : BooleanOutputParser)
    (h : pyUpper p.true_val = pyUpper p.false_val) (text : String) (v : PyVal)
    (hok : p.parse text = Except.ok v) : v = PyVal.pybool true := by
  simp only [BooleanOutputParser.parse] at hok
  split at hok
  · cases hok
  · next hcond =>
    have hc : pyUpper (pyStrip text) = pyUpper p.true_val := by
      rcases not_and_or.mp hcond with hc | hc
      · exact not_not.mp hc
      · exact (not_not.mp hc).trans h.symm
    have hv := (Except.ok.inj hok).symm
    rw [hv, hc]
    simp

/-- C10 witness: with tokens `"yes"` and `"Yes"` (which coincide upper-cased),
the accepted input `"YES"` parses to `True`. -/
theorem C10_witness : PyVal.pybool true = PyVal.pybool true :=
  C10_degenerate_true_only { true_val := "yes", false_val := "Yes" } (by decide)
    "YES" (PyVal.pybool true) rfl
